import Mathlib

/-!
Verification of the `image_gen` MCP server (`src/image_gen/server.py`).

The development shallowly embeds the request/response translation layer of
the server: building the outbound Together-API payload, classifying HTTP
outcomes, the one-shot fallback to the default model, and the tool handler
that turns the classified response into a tool result.

Python values decoded from JSON bodies are modelled by the inductive `JSON`;
Python dictionaries by association lists with string keys; Python exceptions
(transport faults raised by `client.post`, `KeyError` / `IndexError` /
`TypeError` raised by subscripting, and validation faults raised when
constructing content objects from ill-typed data) by the `PyErr` type
threaded through `Except`.  A single upstream HTTP exchange is modelled by
`RawResp`: either a transport fault, or a status code together with the
result of `response.json()` (`none` when decoding raised, which the source
maps to an empty dictionary).
-/

namespace ImageGen

/-- A decoded JSON value, as produced by `response.json()`. -/
inductive JSON where
  | null : JSON
  | bool (b : Bool) : JSON
  | num (n : Int) : JSON
  | str (s : String) : JSON
  | arr (elems : List JSON) : JSON
  | obj (fields : List (String × JSON)) : JSON

/-- A Python dictionary with string keys, as decoded from a JSON object body. -/
abbrev Dict := List (String × JSON)

/-- First-match association lookup: Python `d.get(k)` / `d[k]` on a dict. -/
def pyLookup (d : Dict) (k : String) : Option JSON :=
  match d with
  | [] => none
  | (k0, v) :: rest => if k0 = k then some v else pyLookup rest k

/-- Python `k in d` on a dict. -/
def hasKey (d : Dict) (k : String) : Bool :=
  (pyLookup d k).isSome

/-- Python `d.get(k, dflt)`. -/
def dictGetD (d : Dict) (k : String) (dflt : JSON) : JSON :=
  (pyLookup d k).getD dflt

/-- Python `d[k] = v`: replace the value in place when the key exists
(insertion order is kept), append otherwise. -/
def dictSet (d : Dict) (k : String) (v : JSON) : Dict :=
  if hasKey d k then d.map (fun kv => if kv.1 = k then (k, v) else kv)
  else d ++ [(k, v)]

/-- The keys of a dict, in insertion order. -/
def dictKeys (d : Dict) : List String :=
  d.map Prod.fst

/-- A single-quote character, used by Python `repr` of strings. -/
def sq : String :=
  String.singleton (Char.ofNat 39)

mutual

/-- Python `repr` restricted to the values of `JSON` (string escaping is not
modelled; the strings involved contain no quotes or backslashes). -/
def pyRepr : JSON → String
  | JSON.null => "None"
  | JSON.bool true => "True"
  | JSON.bool false => "False"
  | JSON.num n => toString n
  | JSON.str s => sq ++ s ++ sq
  | JSON.arr elems => "[" ++ pyReprElems elems ++ "]"
  | JSON.obj fields => "\x7b" ++ pyReprFields fields ++ "\x7d"

/-- Python `repr` of the elements of a list, comma-separated. -/
def pyReprElems : List JSON → String
  | [] => ""
  | [v] => pyRepr v
  | v :: rest => pyRepr v ++ ", " ++ pyReprElems rest

/-- Python `repr` of the entries of a dict, comma-separated. -/
def pyReprFields : List (String × JSON) → String
  | [] => ""
  | [(k, v)] => sq ++ k ++ sq ++ ": " ++ pyRepr v
  | (k, v) :: rest => sq ++ k ++ sq ++ ": " ++ pyRepr v ++ ", " ++ pyReprFields rest

end

/-- Python `str`, as used by f-string interpolation: strings verbatim, any
other value via `repr`. -/
def pyStr : JSON → String
  | JSON.str s => s
  | v => pyRepr v

/-- Python `s.lower()` (ASCII; the classified strings are ASCII). -/
def pyLower (s : String) : String :=
  String.mk (s.toList.map Char.toLower)

/-- Python `sub in s`: substring containment. -/
def pyIn (sub s : String) : Bool :=
  sub.isEmpty || s.toList.tails.any (fun t => sub.toList.isPrefixOf t)

/-- Python truthiness of an optional value, as tested by `if not x`:
`None`, empty strings, zero, `False` and empty collections are falsy. -/
def pyFalsy (v : Option JSON) : Bool :=
  match v with
  | none => true
  | some JSON.null => true
  | some (JSON.bool b) => !b
  | some (JSON.num n) => n == 0
  | some (JSON.str s) => s.isEmpty
  | some (JSON.arr elems) => elems.isEmpty
  | some (JSON.obj fields) => fields.isEmpty

/-- Collapse a JSON `null` value to Python `None`, so that `d.get(k)`
followed by an `is not None` test is modelled by an `Option` match. -/
def denull (v : Option JSON) : Option JSON :=
  match v with
  | some JSON.null => none
  | x => x

/-- The Python exceptions that can arise inside the tool handler: transport
faults raised by `client.post`, subscripting errors, and validation faults
from constructing content objects out of ill-typed data.  `keyError` carries
`str(KeyError(k))`, which is `repr(k)`. -/
inductive PyErr where
  | timeout : PyErr
  | connectError : PyErr
  | transportOther : PyErr
  | attributeError : PyErr
  | typeError : PyErr
  | keyError (key : String) : PyErr
  | indexError : PyErr
  | validationError : PyErr
deriving DecidableEq, Repr

/-- One upstream HTTP exchange: a transport fault raised by `client.post`,
or a status code with the result of `response.json()` (`none` when the body
failed to decode). -/
inductive RawResp where
  | resp (status : Nat) (body : Option Dict) : RawResp
  | fault (e : PyErr) : RawResp

/-- `TOGETHER_AI_BASE` from `server.py`. -/
def TOGETHER_AI_BASE : String :=
  "https://api.together.xyz/v1/images/generations"

/-- `DEFAULT_MODEL` from `server.py`. -/
def DEFAULT_MODEL : String :=
  "black-forest-labs/FLUX.1-schnell"

/-- The inner `send_request` of `make_together_request`: a transport fault
propagates, otherwise the status is paired with the decoded body, an
undecodable body being replaced by the empty dictionary. -/
def send_request (r : RawResp) : Except PyErr (Nat × Dict) :=
  match r with
  | RawResp.fault e => Except.error e
  | RawResp.resp status body => Except.ok (status, body.getD [])

/-- The `request_body` built at the top of `make_together_request`: model,
prompt and `response_format` always; width and height only when not `None`. -/
def build_request_body (prompt model : JSON) (width height : Option JSON) : Dict :=
  let rb : Dict := [("model", model), ("prompt", prompt),
    ("response_format", JSON.str "b64_json")]
  let rb := match width with
    | some w => dictSet rb "width" w
    | none => rb
  match height with
  | some h => dictSet rb "height" h
  | none => rb

/-- Python `error_info.get(k, "").lower()`: raises `AttributeError` when
`error_info` is not a dict or the looked-up value is not a string. -/
def errField (errorInfo : JSON) (k : String) : Except PyErr String :=
  match errorInfo with
  | JSON.obj fields =>
    match pyLookup fields k with
    | none => Except.ok ""
    | some (JSON.str s) => Except.ok (pyLower s)
    | some _ => Except.error PyErr.attributeError
  | _ => Except.error PyErr.attributeError

/-- The model-unavailable signature tested at lines 85-87 of `server.py`,
over the already-lowercased message and code. -/
def isModelUnavailable (msg code : String) : Bool :=
  (pyIn "model" msg && pyIn "not available" msg) || code == "model_not_available"

/-- The error message built when the fallback call fails (line 93). -/
def fallbackErrorText (data2 : Dict) (status2 : Nat) : String :=
  "Fallback API error: " ++ pyStr (dictGetD data2 "error" (JSON.str "Unknown error"))
    ++ " (HTTP " ++ toString status2 ++ ")"

/-- The outcome of `make_together_request`: the returned dictionary (or the
exception that escaped), together with the request bodies handed to
`client.post`, in order. -/
structure MTRResult where
  result : Except PyErr Dict
  calls : List Dict

/-- `make_together_request` from `server.py`.  `first` and `second` are the
upstream exchanges that `client.post` would produce for the first and the
fallback request. -/
def make_together_request (first second : RawResp) (prompt model : JSON)
    (width height : Option JSON) : MTRResult :=
  let request_body := build_request_body prompt model width height
  match send_request first with
  | Except.error e => ⟨Except.error e, [request_body]⟩
  | Except.ok (status, data) =>
    if status ≠ 200 ∧ hasKey data "error" = true then
      let error_info := dictGetD data "error" JSON.null
      match errField error_info "message" with
      | Except.error e => ⟨Except.error e, [request_body]⟩
      | Except.ok error_msg =>
        match errField error_info "code" with
        | Except.error e => ⟨Except.error e, [request_body]⟩
        | Except.ok error_code =>
          if isModelUnavailable error_msg error_code = true then
            let fallback_body := dictSet request_body "model" (JSON.str DEFAULT_MODEL)
            match send_request second with
            | Except.error e => ⟨Except.error e, [request_body, fallback_body]⟩
            | Except.ok (status2, data2) =>
              if status2 ≠ 200 ∨ hasKey data2 "error" = true then
                ⟨Except.ok [("error", JSON.str (fallbackErrorText data2 status2))],
                  [request_body, fallback_body]⟩
              else ⟨Except.ok data2, [request_body, fallback_body]⟩
          else
            ⟨Except.ok [("error",
                JSON.str ("Together API error: " ++ pyStr (dictGetD data "error" JSON.null)))],
              [request_body]⟩
    else if status ≠ 200 then
      ⟨Except.ok [("error", JSON.str ("HTTP error " ++ toString status))], [request_body]⟩
    else ⟨Except.ok data, [request_body]⟩

/-- A content item returned to the caller: `TextContent` or `ImageContent`. -/
inductive ToolResult where
  | text (content : String) : ToolResult
  | image (data : String) (mimeType : String) : ToolResult
deriving DecidableEq, Repr

/-- Python subscripting `v[index]` as used in the handler: dict lookup
(`KeyError` carrying `repr` of the key when absent), list indexing with
negative-index support (`IndexError` out of range), string indexing, and
`TypeError` for any other combination. -/
def pySubscript (v index : JSON) : Except PyErr JSON :=
  match v, index with
  | JSON.obj fields, JSON.str k =>
    match pyLookup fields k with
    | some x => Except.ok x
    | none => Except.error (PyErr.keyError (pyRepr (JSON.str k)))
  | JSON.obj _, other => Except.error (PyErr.keyError (pyRepr other))
  | JSON.arr elems, JSON.num n =>
    let i := if n < 0 then n + elems.length else n
    if h : 0 ≤ i ∧ i.toNat < elems.length then Except.ok (elems.get ⟨i.toNat, h.2⟩)
    else Except.error PyErr.indexError
  | JSON.str s, JSON.num n =>
    let cs := s.toList
    let i := if n < 0 then n + cs.length else n
    if h : 0 ≤ i ∧ i.toNat < cs.length then
      Except.ok (JSON.str (String.singleton (cs.get ⟨i.toNat, h.2⟩)))
    else Except.error PyErr.indexError
  | _, _ => Except.error PyErr.typeError

/-- The extraction `response_data["data"][0]["b64_json"]` at line 141. -/
def extract_b64 (response_data : Dict) : Except PyErr JSON := do
  let d ← pySubscript (JSON.obj response_data) (JSON.str "data")
  let e0 ← pySubscript d (JSON.num 0)
  pySubscript e0 (JSON.str "b64_json")

/-- The outcome of one call to the tool handler: the returned content list
(`none` models the implicit `None` returned for an unknown tool name), or
the exception that escaped, together with the upstream request bodies sent. -/
structure CallOutcome where
  result : Except PyErr (Option (List ToolResult))
  calls : List Dict

/-- Python `not arguments` on the handler's `dict | None` argument. -/
def argsMissing (arguments : Option Dict) : Bool :=
  match arguments with
  | none => true
  | some d => d.isEmpty

/-- Lines 137-152 of `handle_call_tool`: turn the outcome of
`make_together_request` into the returned content list.  An `error` entry
yields `TextContent`; otherwise `response_data["data"][0]["b64_json"]` is
extracted, `KeyError` / `IndexError` being caught and rendered as a parse
failure, any other exception escaping. -/
def respond (mtr : MTRResult) : CallOutcome :=
  match mtr.result with
  | Except.error e => ⟨Except.error e, mtr.calls⟩
  | Except.ok response_data =>
    if hasKey response_data "error" = true then
      match dictGetD response_data "error" JSON.null with
      | JSON.str s => ⟨Except.ok (some [ToolResult.text s]), mtr.calls⟩
      | _ => ⟨Except.error PyErr.validationError, mtr.calls⟩
    else
      match extract_b64 response_data with
      | Except.ok (JSON.str b64) =>
        ⟨Except.ok (some [ToolResult.image b64 "image/jpeg"]), mtr.calls⟩
      | Except.ok _ => ⟨Except.error PyErr.validationError, mtr.calls⟩
      | Except.error (PyErr.keyError k) =>
        ⟨Except.ok (some [ToolResult.text ("Failed to parse API response: " ++ k)]),
          mtr.calls⟩
      | Except.error PyErr.indexError =>
        ⟨Except.ok (some [ToolResult.text
          "Failed to parse API response: list index out of range"]), mtr.calls⟩
      | Except.error e => ⟨Except.error e, mtr.calls⟩

/-- `handle_call_tool` from `server.py`, with the two possible upstream
exchanges supplied as `first` and `second`. -/
def handle_call_tool (name : String) (arguments : Option Dict)
    (first second : RawResp) : CallOutcome :=
  if argsMissing arguments = true then
    ⟨Except.ok (some [ToolResult.text "Missing arguments for the request"]), []⟩
  else if name = "generate_image" then
    let args := arguments.getD []
    let prompt := pyLookup args "prompt"
    let model := pyLookup args "model"
    let width := denull (pyLookup args "width")
    let height := denull (pyLookup args "height")
    if pyFalsy prompt = true ∨ pyFalsy model = true then
      ⟨Except.ok (some [ToolResult.text "Missing prompt or model parameter"]), []⟩
    else
      respond (make_together_request first second (prompt.getD JSON.null)
        (model.getD JSON.null) width height)
  else ⟨Except.ok none, []⟩

/-- Python `arguments.get(k)` on the handler's `dict | None` argument. -/
def pyOptLookup (arguments : Option Dict) (k : String) : Option JSON :=
  arguments.bind (fun d => pyLookup d k)

/-! ## Helper lemmas -/

theorem argsMissing_eq_false {args : Dict} {k : String} {v : JSON}
    (h : pyLookup args k = some v) : argsMissing (some args) = false := by
  cases args with
  | nil => simp [pyLookup] at h
  | cons hd tl => simp [argsMissing]

theorem handle_unfold (args : Dict) (pv mv : JSON) (first second : RawResp)
    (hpv : pyLookup args "prompt" = some pv) (hpf : pyFalsy (some pv) = false)
    (hmv : pyLookup args "model" = some mv) (hmf : pyFalsy (some mv) = false) :
    handle_call_tool "generate_image" (some args) first second
      = respond (make_together_request first second pv mv
          (denull (pyLookup args "width")) (denull (pyLookup args "height"))) := by
  simp [handle_call_tool, argsMissing_eq_false hpv, hpv, hmv, hpf, hmf]

theorem make_fault_first (e : PyErr) (second : RawResp) (pv mv : JSON)
    (w h : Option JSON) :
    make_together_request (RawResp.fault e) second pv mv w h
      = ⟨Except.error e, [build_request_body pv mv w h]⟩ := by
  simp [make_together_request, send_request]

theorem make_status200 (body : Option Dict) (second : RawResp) (pv mv : JSON)
    (w h : Option JSON) :
    make_together_request (RawResp.resp 200 body) second pv mv w h
      = ⟨Except.ok (body.getD []), [build_request_body pv mv w h]⟩ := by
  simp [make_together_request, send_request]

theorem make_http_error (s1 : Nat) (body1 : Option Dict) (second : RawResp)
    (pv mv : JSON) (w h : Option JSON) (hs1 : s1 ≠ 200)
    (hnoerr : hasKey (body1.getD []) "error" = false) :
    make_together_request (RawResp.resp s1 body1) second pv mv w h
      = ⟨Except.ok [("error", JSON.str ("HTTP error " ++ toString s1))],
         [build_request_body pv mv w h]⟩ := by
  simp [make_together_request, send_request, hs1, hnoerr]

theorem respond_error (e : PyErr) (cs : List Dict) :
    respond ⟨Except.error e, cs⟩ = ⟨Except.error e, cs⟩ := rfl

theorem respond_error_entry (s : String) (cs : List Dict) :
    respond ⟨Except.ok [("error", JSON.str s)], cs⟩
      = ⟨Except.ok (some [ToolResult.text s]), cs⟩ := by
  simp [respond, hasKey, pyLookup, dictGetD]

theorem make_together_error (s1 : Nat) (d1 : Dict) (err : JSON) (msg code : String)
    (second : RawResp) (pv mv : JSON) (w h : Option JSON)
    (hs1 : s1 ≠ 200) (herr : pyLookup d1 "error" = some err)
    (hmsg : errField err "message" = Except.ok msg)
    (hcode : errField err "code" = Except.ok code)
    (hsig : isModelUnavailable msg code = false) :
    make_together_request (RawResp.resp s1 (some d1)) second pv mv w h
      = ⟨Except.ok [("error", JSON.str ("Together API error: " ++ pyStr err))],
         [build_request_body pv mv w h]⟩ := by
  simp [make_together_request, send_request, hs1, hasKey, herr, dictGetD, hmsg,
    hcode, hsig]

theorem make_fallback_fail (s1 : Nat) (d1 : Dict) (err : JSON) (msg code : String)
    (s2 : Nat) (body2 : Option Dict) (pv mv : JSON) (w h : Option JSON)
    (hs1 : s1 ≠ 200) (herr : pyLookup d1 "error" = some err)
    (hmsg : errField err "message" = Except.ok msg)
    (hcode : errField err "code" = Except.ok code)
    (hsig : isModelUnavailable msg code = true)
    (hfail : s2 ≠ 200 ∨ hasKey (body2.getD []) "error" = true) :
    make_together_request (RawResp.resp s1 (some d1)) (RawResp.resp s2 body2) pv mv w h
      = ⟨Except.ok [("error", JSON.str (fallbackErrorText (body2.getD []) s2))],
         [build_request_body pv mv w h,
          dictSet (build_request_body pv mv w h) "model" (JSON.str DEFAULT_MODEL)]⟩ := by
  have h1 : hasKey d1 "error" = true := by simp [hasKey, herr]
  rcases hfail with h2 | h2 <;>
    simp [make_together_request, send_request, hs1, h1, herr, dictGetD, hmsg,
      hcode, hsig, h2]

theorem make_fallback_ok (s1 : Nat) (d1 : Dict) (err : JSON) (msg code : String)
    (body2 : Option Dict) (pv mv : JSON) (w h : Option JSON)
    (hs1 : s1 ≠ 200) (herr : pyLookup d1 "error" = some err)
    (hmsg : errField err "message" = Except.ok msg)
    (hcode : errField err "code" = Except.ok code)
    (hsig : isModelUnavailable msg code = true)
    (hnoerr2 : hasKey (body2.getD []) "error" = false) :
    make_together_request (RawResp.resp s1 (some d1)) (RawResp.resp 200 body2) pv mv w h
      = ⟨Except.ok (body2.getD []),
         [build_request_body pv mv w h,
          dictSet (build_request_body pv mv w h) "model" (JSON.str DEFAULT_MODEL)]⟩ := by
  have h1 : hasKey d1 "error" = true := by simp [hasKey, herr]
  simp [make_together_request, send_request, hs1, h1, herr, dictGetD, hmsg,
    hcode, hsig, hnoerr2]

theorem extract_ok {d ef : Dict} {rest : List JSON} {b64 : String}
    (hdata : pyLookup d "data" = some (JSON.arr (JSON.obj ef :: rest)))
    (hb : pyLookup ef "b64_json" = some (JSON.str b64)) :
    extract_b64 d = Except.ok (JSON.str b64) := by
  simp [extract_b64, pySubscript, hdata, hb, Bind.bind, Except.bind]

theorem extract_no_data {d : Dict} (h : pyLookup d "data" = none) :
    extract_b64 d = Except.error (PyErr.keyError (pyRepr (JSON.str "data"))) := by
  simp [extract_b64, pySubscript, h, Bind.bind, Except.bind]

theorem extract_empty_data {d : Dict} (h : pyLookup d "data" = some (JSON.arr [])) :
    extract_b64 d = Except.error PyErr.indexError := by
  simp [extract_b64, pySubscript, h, Bind.bind, Except.bind]

theorem extract_no_b64 {d ef : Dict} {rest : List JSON}
    (hdata : pyLookup d "data" = some (JSON.arr (JSON.obj ef :: rest)))
    (hb : pyLookup ef "b64_json" = none) :
    extract_b64 d = Except.error (PyErr.keyError (pyRepr (JSON.str "b64_json"))) := by
  simp [extract_b64, pySubscript, hdata, hb, Bind.bind, Except.bind]

theorem respond_image {d : Dict} {b64 : String} (cs : List Dict)
    (hne : hasKey d "error" = false)
    (hx : extract_b64 d = Except.ok (JSON.str b64)) :
    respond ⟨Except.ok d, cs⟩
      = ⟨Except.ok (some [ToolResult.image b64 "image/jpeg"]), cs⟩ := by
  simp [respond, hne, hx]

theorem respond_parse_fail_key {d : Dict} (k : String) (cs : List Dict)
    (hne : hasKey d "error" = false)
    (hx : extract_b64 d = Except.error (PyErr.keyError k)) :
    respond ⟨Except.ok d, cs⟩
      = ⟨Except.ok (some [ToolResult.text ("Failed to parse API response: " ++ k)]), cs⟩ := by
  simp [respond, hne, hx]

theorem respond_parse_fail_index {d : Dict} (cs : List Dict)
    (hne : hasKey d "error" = false)
    (hx : extract_b64 d = Except.error PyErr.indexError) :
    respond ⟨Except.ok d, cs⟩
      = ⟨Except.ok (some [ToolResult.text
          "Failed to parse API response: list index out of range"]), cs⟩ := by
  simp [respond, hne, hx]

theorem pyLookup_map_set {d : Dict} {k : String} (v : JSON) (h : hasKey d k = true) :
    pyLookup (d.map (fun kv => if kv.1 = k then (k, v) else kv)) k = some v := by
  induction d with
  | nil => simp [hasKey, pyLookup] at h
  | cons hd tl ih =>
    by_cases hk : hd.1 = k
    · rw [List.map_cons, if_pos hk]
      simp [pyLookup]
    · have h' : hasKey tl k = true := by simpa [hasKey, pyLookup, hk] using h
      rw [List.map_cons, if_neg hk]
      simp only [pyLookup, hk, if_false]
      exact ih h'

theorem pyLookup_append_single {d : Dict} {k : String} (v : JSON)
    (h : pyLookup d k = none) :
    pyLookup (d ++ [(k, v)]) k = some v := by
  induction d with
  | nil => simp [pyLookup]
  | cons hd tl ih =>
    by_cases hk : hd.1 = k
    · simp [pyLookup, hk] at h
    · simp only [List.cons_append, pyLookup, hk, if_false] at h ⊢
      exact ih h

theorem pyLookup_dictSet_self (d : Dict) (k : String) (v : JSON) :
    pyLookup (dictSet d k v) k = some v := by
  by_cases hk : hasKey d k = true
  · simp only [dictSet, hk, if_true]
    exact pyLookup_map_set v hk
  · have h0 : pyLookup d k = none := by
      revert hk
      unfold hasKey
      cases pyLookup d k <;> simp
    simp only [dictSet, hk]
    simpa using pyLookup_append_single v h0

theorem pyLookup_map_set_other (d : Dict) (k k2 : String) (v : JSON)
    (hne : k2 ≠ k) :
    pyLookup (d.map (fun kv => if kv.1 = k then (k, v) else kv)) k2
      = pyLookup d k2 := by
  induction d with
  | nil => rfl
  | cons hd tl ih =>
    by_cases hh : hd.1 = k
    · have h1 : ¬(k = k2) := fun h2 => hne h2.symm
      have h2 : ¬(hd.1 = k2) := by rw [hh]; exact h1
      rw [List.map_cons, if_pos hh]
      simp [pyLookup, h1, h2, ih]
    · rw [List.map_cons, if_neg hh]
      by_cases h3 : hd.1 = k2 <;> simp [pyLookup, h3, ih]

theorem pyLookup_append_other (d : Dict) (k k2 : String) (v : JSON)
    (hne : k2 ≠ k) :
    pyLookup (d ++ [(k, v)]) k2 = pyLookup d k2 := by
  induction d with
  | nil =>
    have h1 : ¬(k = k2) := fun h2 => hne h2.symm
    simp [pyLookup, h1]
  | cons hd tl ih => by_cases h3 : hd.1 = k2 <;> simp [pyLookup, h3, ih]

theorem pyLookup_dictSet_other (d : Dict) (k k2 : String) (v : JSON)
    (hne : k2 ≠ k) :
    pyLookup (dictSet d k v) k2 = pyLookup d k2 := by
  by_cases hk : hasKey d k = true
  · simp only [dictSet, hk, if_true]
    exact pyLookup_map_set_other d k k2 v hne
  · simp only [dictSet, hk, if_false]
    exact pyLookup_append_other d k k2 v hne

theorem dictKeys_map_set (d : Dict) (k : String) (v : JSON) :
    dictKeys (d.map (fun kv => if kv.1 = k then (k, v) else kv)) = dictKeys d := by
  induction d with
  | nil => rfl
  | cons hd tl ih =>
    by_cases hh : hd.1 = k
    · rw [List.map_cons, if_pos hh]
      simp only [dictKeys, List.map_cons] at ih ⊢
      rw [ih]
      simp [hh]
    · rw [List.map_cons, if_neg hh]
      simp only [dictKeys, List.map_cons] at ih ⊢
      rw [ih]

theorem dictKeys_dictSet_existing (d : Dict) (k : String) (v : JSON)
    (hk : hasKey d k = true) :
    dictKeys (dictSet d k v) = dictKeys d := by
  simp only [dictSet, hk, if_true]
  exact dictKeys_map_set d k v

theorem build_lookup (pv mv : JSON) (w h : Option JSON) :
    pyLookup (build_request_body pv mv w h) "model" = some mv
    ∧ pyLookup (build_request_body pv mv w h) "prompt" = some pv
    ∧ pyLookup (build_request_body pv mv w h) "response_format"
        = some (JSON.str "b64_json")
    ∧ pyLookup (build_request_body pv mv w h) "width" = w
    ∧ pyLookup (build_request_body pv mv w h) "height" = h
    ∧ dictKeys (build_request_body pv mv w h)
        = ["model", "prompt", "response_format"]
          ++ (match w with | some _ => ["width"] | none => [])
          ++ (match h with | some _ => ["height"] | none => []) := by
  cases w <;> cases h <;>
    simp [build_request_body, dictSet, hasKey, pyLookup, dictKeys]

theorem respond_calls (m : MTRResult) : (respond m).calls = m.calls := by
  rcases m with ⟨res, cs⟩
  rcases res with e | rd
  · rfl
  · simp only [respond]
    split
    · split <;> rfl
    · split <;> rfl

theorem make_calls_shape (first second : RawResp) (pv mv : JSON)
    (w h : Option JSON) :
    (make_together_request first second pv mv w h).calls
        = [build_request_body pv mv w h]
    ∨ (make_together_request first second pv mv w h).calls
        = [build_request_body pv mv w h,
           dictSet (build_request_body pv mv w h) "model" (JSON.str DEFAULT_MODEL)] := by
  unfold make_together_request send_request
  rcases first with ⟨s1, b1⟩ | e
  · simp only
    split
    · split
      · left; rfl
      · split
        · left; rfl
        · split
          · rcases second with ⟨s2, b2⟩ | e2
            · simp only
              split
              · right; rfl
              · right; rfl
            · right; rfl
          · left; rfl
    · split
      · left; rfl
      · left; rfl
  · left; rfl

theorem make_classified_ok (first second : RawResp) (pv mv : JSON)
    (w h : Option JSON) (d : Dict)
    (hsucc : first = RawResp.resp 200 (some d)
      ∨ ∃ s1 d1 err msg code, first = RawResp.resp s1 (some d1) ∧ s1 ≠ 200
          ∧ pyLookup d1 "error" = some err
          ∧ errField err "message" = Except.ok msg
          ∧ errField err "code" = Except.ok code
          ∧ isModelUnavailable msg code = true
          ∧ second = RawResp.resp 200 (some d))
    (hnoerr : hasKey d "error" = false) :
    ∃ cs, make_together_request first second pv mv w h = ⟨Except.ok d, cs⟩ := by
  rcases hsucc with h1 | ⟨s1, d1, err, msg, code, hf, hs1, herr, hmsg, hcode, hsig, hsec⟩
  · subst h1
    refine ⟨[build_request_body pv mv w h], ?_⟩
    simpa using make_status200 (some d) second pv mv w h
  · subst hf
    subst hsec
    refine ⟨[build_request_body pv mv w h,
      dictSet (build_request_body pv mv w h) "model" (JSON.str DEFAULT_MODEL)], ?_⟩
    simpa using make_fallback_ok s1 d1 err msg code (some d) pv mv w h hs1 herr
      hmsg hcode hsig (by simpa using hnoerr)

/-! ## Claim theorems -/

/-- C1, counterexample: a transport timeout on the first call does not
resolve to a text ToolResult — the exception escapes the tool handler.  At a
concrete invocation with valid arguments and a timeout fault, the handler's
outcome is the propagated `timeout` exception, not an `Except.ok` content
list. -/
theorem C1_counterexample :
    (handle_call_tool "generate_image"
        (some [("prompt", JSON.str "a cat"), ("model", JSON.str "m")])
        (RawResp.fault PyErr.timeout) (RawResp.resp 200 (some []))).result
      = Except.error PyErr.timeout := by
  rfl

/-- C1 (amended): a transport-level fault raised by the first HTTP POST
(timeout, connection refusal, or any other transport error) propagates as an
unhandled exception past the tool handler — no ToolResult is produced — and
no fallback call is attempted: exactly one upstream request body is handed
to `client.post`. -/
theorem C1_transport_fault_escapes (args : Dict) (pv mv : JSON) (e : PyErr)
    (second : RawResp)
    (hpv : pyLookup args "prompt" = some pv) (hpf : pyFalsy (some pv) = false)
    (hmv : pyLookup args "model" = some mv) (hmf : pyFalsy (some mv) = false)
    (htransport : e = PyErr.timeout ∨ e = PyErr.connectError
      ∨ e = PyErr.transportOther) :
    handle_call_tool "generate_image" (some args) (RawResp.fault e) second
      = ⟨Except.error e,
         [build_request_body pv mv (denull (pyLookup args "width"))
           (denull (pyLookup args "height"))]⟩ := by
  rw [handle_unfold args pv mv (RawResp.fault e) second hpv hpf hmv hmf,
    make_fault_first, respond_error]

/-- C1, witness for the amended theorem at a concrete invocation. -/
theorem C1_witness :
    handle_call_tool "generate_image"
        (some [("prompt", JSON.str "a cat"), ("model", JSON.str "m")])
        (RawResp.fault PyErr.timeout) (RawResp.resp 200 (some []))
      = ⟨Except.error PyErr.timeout,
         [build_request_body (JSON.str "a cat") (JSON.str "m") none none]⟩ :=
  C1_transport_fault_escapes _ _ _ _ _ rfl rfl rfl rfl (Or.inl rfl)

/-- C5: when the arguments lack a prompt or a model (absent, `None`, empty —
any Python-falsy value), the handler returns a text ToolResult reporting the
missing parameter (or missing arguments, when the argument dict itself is
absent or empty) and no request body is ever handed to `client.post`. -/
theorem C5_missing_parameter (args : Option Dict) (first second : RawResp)
    (h : pyFalsy (pyOptLookup args "prompt") = true
      ∨ pyFalsy (pyOptLookup args "model") = true) :
    (handle_call_tool "generate_image" args first second).calls = []
    ∧ ((handle_call_tool "generate_image" args first second).result
        = Except.ok (some [ToolResult.text "Missing arguments for the request"])
      ∨ (handle_call_tool "generate_image" args first second).result
        = Except.ok (some [ToolResult.text "Missing prompt or model parameter"])) := by
  cases args with
  | none => exact ⟨rfl, Or.inl rfl⟩
  | some d =>
    cases d with
    | nil => exact ⟨rfl, Or.inl rfl⟩
    | cons hd tl =>
      have hm : argsMissing (some (hd :: tl)) = false := by simp [argsMissing]
      simp only [pyOptLookup, Option.bind] at h
      rcases h with h | h <;> simp [handle_call_tool, hm, h]

/-- C5, witness: arguments carrying a model but an empty prompt. -/
theorem C5_witness :
    (handle_call_tool "generate_image"
        (some [("prompt", JSON.str ""), ("model", JSON.str "m")])
        (RawResp.resp 200 (some [])) (RawResp.resp 200 (some []))).calls = []
    ∧ ((handle_call_tool "generate_image"
        (some [("prompt", JSON.str ""), ("model", JSON.str "m")])
        (RawResp.resp 200 (some [])) (RawResp.resp 200 (some []))).result
        = Except.ok (some [ToolResult.text "Missing arguments for the request"])
      ∨ (handle_call_tool "generate_image"
        (some [("prompt", JSON.str ""), ("model", JSON.str "m")])
        (RawResp.resp 200 (some [])) (RawResp.resp 200 (some []))).result
        = Except.ok (some [ToolResult.text "Missing prompt or model parameter"])) :=
  C5_missing_parameter _ _ _ (Or.inl rfl)

/-- C7: a non-200 first response whose body has no `error` entry (also when
the body failed to decode and was replaced by the empty mapping) yields the
text ToolResult `HTTP error <status>`, with no fallback call: exactly one
request body is sent. -/
theorem C7_http_error_no_error_entry (args : Dict) (pv mv : JSON) (s1 : Nat)
    (body1 : Option Dict) (second : RawResp)
    (hpv : pyLookup args "prompt" = some pv) (hpf : pyFalsy (some pv) = false)
    (hmv : pyLookup args "model" = some mv) (hmf : pyFalsy (some mv) = false)
    (hs1 : s1 ≠ 200) (hnoerr : hasKey (body1.getD []) "error" = false) :
    handle_call_tool "generate_image" (some args) (RawResp.resp s1 body1) second
      = ⟨Except.ok (some [ToolResult.text ("HTTP error " ++ toString s1)]),
         [build_request_body pv mv (denull (pyLookup args "width"))
           (denull (pyLookup args "height"))]⟩ := by
  rw [handle_unfold args pv mv (RawResp.resp s1 body1) second hpv hpf hmv hmf,
    make_http_error s1 body1 second pv mv _ _ hs1 hnoerr, respond_error_entry]

/-- C7, witness: a 404 whose body failed to decode. -/
theorem C7_witness :
    handle_call_tool "generate_image"
        (some [("prompt", JSON.str "p"), ("model", JSON.str "m")])
        (RawResp.resp 404 none) (RawResp.resp 200 (some []))
      = ⟨Except.ok (some [ToolResult.text ("HTTP error " ++ toString 404)]),
         [build_request_body (JSON.str "p") (JSON.str "m") none none]⟩ :=
  C7_http_error_no_error_entry _ _ _ _ _ _ rfl rfl rfl rfl (by decide) rfl

/-- C2: when the first call fails non-200 with an `error` entry matching the
model-unavailable signature (message containing both "model" and
"not available" after lowercasing, or code equal to "model_not_available"
after lowercasing), exactly two request bodies are sent, the second being
the first with its model overwritten to `DEFAULT_MODEL`
("black-forest-labs/FLUX.1-schnell"); and when the second call returns 200
with no `error` entry, the result is the image ToolResult built from the
second call's body. -/
theorem C2_model_unavailable_fallback (args : Dict) (pv mv : JSON) (s1 : Nat)
    (d1 : Dict) (err : JSON) (msg code : String) (d2 ef : Dict)
    (rest : List JSON) (b64 : String)
    (hpv : pyLookup args "prompt" = some pv) (hpf : pyFalsy (some pv) = false)
    (hmv : pyLookup args "model" = some mv) (hmf : pyFalsy (some mv) = false)
    (hs1 : s1 ≠ 200) (herr : pyLookup d1 "error" = some err)
    (hmsg : errField err "message" = Except.ok msg)
    (hcode : errField err "code" = Except.ok code)
    (hsig : isModelUnavailable msg code = true)
    (hnoerr2 : hasKey d2 "error" = false)
    (hdata : pyLookup d2 "data" = some (JSON.arr (JSON.obj ef :: rest)))
    (hb : pyLookup ef "b64_json" = some (JSON.str b64)) :
    handle_call_tool "generate_image" (some args) (RawResp.resp s1 (some d1))
        (RawResp.resp 200 (some d2))
      = ⟨Except.ok (some [ToolResult.image b64 "image/jpeg"]),
         [build_request_body pv mv (denull (pyLookup args "width"))
            (denull (pyLookup args "height")),
          dictSet (build_request_body pv mv (denull (pyLookup args "width"))
            (denull (pyLookup args "height"))) "model" (JSON.str DEFAULT_MODEL)]⟩
    ∧ pyLookup (dictSet (build_request_body pv mv (denull (pyLookup args "width"))
        (denull (pyLookup args "height"))) "model" (JSON.str DEFAULT_MODEL)) "model"
      = some (JSON.str DEFAULT_MODEL) := by
  constructor
  · rw [handle_unfold args pv mv (RawResp.resp s1 (some d1))
        (RawResp.resp 200 (some d2)) hpv hpf hmv hmf,
      make_fallback_ok s1 d1 err msg code (some d2) pv mv _ _ hs1 herr hmsg hcode
        hsig hnoerr2]
    exact respond_image _ hnoerr2 (extract_ok hdata hb)
  · exact pyLookup_dictSet_self _ _ _

/-- C2, witness: a 400 `model_not_available`-style rejection followed by an
image-bearing 200 from the fallback. -/
theorem C2_witness :
    handle_call_tool "generate_image"
        (some [("prompt", JSON.str "a cat"), ("model", JSON.str "bad/model")])
        (RawResp.resp 400 (some [("error", JSON.obj
          [("message", JSON.str "Model Not Available now"), ("code", JSON.str "x")])]))
        (RawResp.resp 200 (some [("data", JSON.arr
          [JSON.obj [("b64_json", JSON.str "QUJD")]])]))
      = ⟨Except.ok (some [ToolResult.image "QUJD" "image/jpeg"]),
         [build_request_body (JSON.str "a cat") (JSON.str "bad/model") none none,
          dictSet (build_request_body (JSON.str "a cat") (JSON.str "bad/model")
            none none) "model" (JSON.str DEFAULT_MODEL)]⟩
    ∧ pyLookup (dictSet (build_request_body (JSON.str "a cat")
        (JSON.str "bad/model") none none) "model" (JSON.str DEFAULT_MODEL)) "model"
      = some (JSON.str DEFAULT_MODEL) :=
  C2_model_unavailable_fallback _ _ _ _ _ _ _ _ _ _ _ _
    rfl rfl rfl rfl (by decide) rfl rfl rfl rfl rfl rfl rfl

/-- C3: when the fallback (second) call returns a non-200 status or a body
with an `error` entry, the result is the text ToolResult
`Fallback API error: <error payload or Unknown error> (HTTP <status>)`
(as rendered by `fallbackErrorText`), and no third request body is ever
sent: the calls list has exactly the first body and the fallback body. -/
theorem C3_fallback_failure (args : Dict) (pv mv : JSON) (s1 : Nat) (d1 : Dict)
    (err : JSON) (msg code : String) (s2 : Nat) (body2 : Option Dict)
    (hpv : pyLookup args "prompt" = some pv) (hpf : pyFalsy (some pv) = false)
    (hmv : pyLookup args "model" = some mv) (hmf : pyFalsy (some mv) = false)
    (hs1 : s1 ≠ 200) (herr : pyLookup d1 "error" = some err)
    (hmsg : errField err "message" = Except.ok msg)
    (hcode : errField err "code" = Except.ok code)
    (hsig : isModelUnavailable msg code = true)
    (hfail : s2 ≠ 200 ∨ hasKey (body2.getD []) "error" = true) :
    handle_call_tool "generate_image" (some args) (RawResp.resp s1 (some d1))
        (RawResp.resp s2 body2)
      = ⟨Except.ok (some [ToolResult.text (fallbackErrorText (body2.getD []) s2)]),
         [build_request_body pv mv (denull (pyLookup args "width"))
            (denull (pyLookup args "height")),
          dictSet (build_request_body pv mv (denull (pyLookup args "width"))
            (denull (pyLookup args "height"))) "model" (JSON.str DEFAULT_MODEL)]⟩ := by
  rw [handle_unfold args pv mv (RawResp.resp s1 (some d1)) (RawResp.resp s2 body2)
      hpv hpf hmv hmf,
    make_fallback_fail s1 d1 err msg code s2 body2 pv mv _ _ hs1 herr hmsg hcode
      hsig hfail, respond_error_entry]

/-- C3, witness: the fallback call itself answers 500 with an error body. -/
theorem C3_witness :
    handle_call_tool "generate_image"
        (some [("prompt", JSON.str "a cat"), ("model", JSON.str "bad/model")])
        (RawResp.resp 400 (some [("error", JSON.obj
          [("message", JSON.str "model bad/model not available")])]))
        (RawResp.resp 500 (some [("error", JSON.obj
          [("message", JSON.str "boom")])]))
      = ⟨Except.ok (some [ToolResult.text (fallbackErrorText
          [("error", JSON.obj [("message", JSON.str "boom")])] 500)]),
         [build_request_body (JSON.str "a cat") (JSON.str "bad/model") none none,
          dictSet (build_request_body (JSON.str "a cat") (JSON.str "bad/model")
            none none) "model" (JSON.str DEFAULT_MODEL)]⟩ :=
  C3_fallback_failure _ _ _ _ _ _ _ _ _ _
    rfl rfl rfl rfl (by decide) rfl rfl rfl rfl (Or.inl (by decide))

/-- C6: when the first call fails non-200 with an `error` entry that does
not match the model-unavailable signature, exactly one request body is sent
and the result is the text ToolResult `Together API error: <error payload>`
(the payload rendered by Python `str`). -/
theorem C6_together_api_error (args : Dict) (pv mv : JSON) (s1 : Nat) (d1 : Dict)
    (err : JSON) (msg code : String) (second : RawResp)
    (hpv : pyLookup args "prompt" = some pv) (hpf : pyFalsy (some pv) = false)
    (hmv : pyLookup args "model" = some mv) (hmf : pyFalsy (some mv) = false)
    (hs1 : s1 ≠ 200) (herr : pyLookup d1 "error" = some err)
    (hmsg : errField err "message" = Except.ok msg)
    (hcode : errField err "code" = Except.ok code)
    (hsig : isModelUnavailable msg code = false) :
    handle_call_tool "generate_image" (some args) (RawResp.resp s1 (some d1)) second
      = ⟨Except.ok (some [ToolResult.text ("Together API error: " ++ pyStr err)]),
         [build_request_body pv mv (denull (pyLookup args "width"))
           (denull (pyLookup args "height"))]⟩ := by
  rw [handle_unfold args pv mv (RawResp.resp s1 (some d1)) second hpv hpf hmv hmf,
    make_together_error s1 d1 err msg code second pv mv _ _ hs1 herr hmsg hcode hsig,
    respond_error_entry]

/-- C6, witness: a 403 `invalid token` rejection. -/
theorem C6_witness :
    handle_call_tool "generate_image"
        (some [("prompt", JSON.str "a cat"), ("model", JSON.str "m")])
        (RawResp.resp 403 (some [("error", JSON.obj
          [("message", JSON.str "invalid token")])]))
        (RawResp.resp 200 (some []))
      = ⟨Except.ok (some [ToolResult.text ("Together API error: "
          ++ pyStr (JSON.obj [("message", JSON.str "invalid token")]))]),
         [build_request_body (JSON.str "a cat") (JSON.str "m") none none]⟩ :=
  C6_together_api_error _ _ _ _ _ _ _ _ _
    rfl rfl rfl rfl (by decide) rfl rfl rfl rfl

/-- C4: whenever the classified-successful body — a 200 first response with
no `error` entry, or a 200 error-free fallback response reached through the
model-unavailable signature — carries `data[0].b64_json`, the handler
returns an image ToolResult whose payload is exactly that base64 string and
whose MIME type is `image/jpeg`. -/
theorem C4_success_image (args : Dict) (pv mv : JSON) (first second : RawResp)
    (d ef : Dict) (rest : List JSON) (b64 : String)
    (hpv : pyLookup args "prompt" = some pv) (hpf : pyFalsy (some pv) = false)
    (hmv : pyLookup args "model" = some mv) (hmf : pyFalsy (some mv) = false)
    (hsucc : first = RawResp.resp 200 (some d)
      ∨ ∃ s1 d1 err msg code, first = RawResp.resp s1 (some d1) ∧ s1 ≠ 200
          ∧ pyLookup d1 "error" = some err
          ∧ errField err "message" = Except.ok msg
          ∧ errField err "code" = Except.ok code
          ∧ isModelUnavailable msg code = true
          ∧ second = RawResp.resp 200 (some d))
    (hnoerr : hasKey d "error" = false)
    (hdata : pyLookup d "data" = some (JSON.arr (JSON.obj ef :: rest)))
    (hb : pyLookup ef "b64_json" = some (JSON.str b64)) :
    (handle_call_tool "generate_image" (some args) first second).result
      = Except.ok (some [ToolResult.image b64 "image/jpeg"]) := by
  obtain ⟨cs, hcs⟩ := make_classified_ok first second pv mv
    (denull (pyLookup args "width")) (denull (pyLookup args "height")) d hsucc hnoerr
  rw [handle_unfold args pv mv first second hpv hpf hmv hmf, hcs,
    respond_image cs hnoerr (extract_ok hdata hb)]

/-- C4, witness: a 200 first response carrying an image. -/
theorem C4_witness :
    (handle_call_tool "generate_image"
        (some [("prompt", JSON.str "p"), ("model", JSON.str "m")])
        (RawResp.resp 200 (some [("data", JSON.arr
          [JSON.obj [("b64_json", JSON.str "QUJD")]])]))
        (RawResp.resp 200 (some []))).result
      = Except.ok (some [ToolResult.image "QUJD" "image/jpeg"]) :=
  C4_success_image _ _ _ _ _ _ _ _ _ rfl rfl rfl rfl (Or.inl rfl) rfl rfl rfl

/-- C8: whenever the classified-successful body lacks a usable image — the
`data` key is absent, the `data` sequence is empty, or its first element is
a mapping without the `b64_json` field — the handler returns a text
ToolResult whose message is `Failed to parse API response: ` followed by the
details of the caught `KeyError` or `IndexError`. -/
theorem C8_parse_failure (args : Dict) (pv mv : JSON) (first second : RawResp)
    (d : Dict)
    (hpv : pyLookup args "prompt" = some pv) (hpf : pyFalsy (some pv) = false)
    (hmv : pyLookup args "model" = some mv) (hmf : pyFalsy (some mv) = false)
    (hsucc : first = RawResp.resp 200 (some d)
      ∨ ∃ s1 d1 err msg code, first = RawResp.resp s1 (some d1) ∧ s1 ≠ 200
          ∧ pyLookup d1 "error" = some err
          ∧ errField err "message" = Except.ok msg
          ∧ errField err "code" = Except.ok code
          ∧ isModelUnavailable msg code = true
          ∧ second = RawResp.resp 200 (some d))
    (hnoerr : hasKey d "error" = false)
    (hlack : pyLookup d "data" = none
      ∨ pyLookup d "data" = some (JSON.arr [])
      ∨ ∃ ef rest, pyLookup d "data" = some (JSON.arr (JSON.obj ef :: rest))
          ∧ pyLookup ef "b64_json" = none) :
    ∃ details, (handle_call_tool "generate_image" (some args) first second).result
      = Except.ok (some [ToolResult.text ("Failed to parse API response: "
          ++ details)]) := by
  obtain ⟨cs, hcs⟩ := make_classified_ok first second pv mv
    (denull (pyLookup args "width")) (denull (pyLookup args "height")) d hsucc hnoerr
  rw [handle_unfold args pv mv first second hpv hpf hmv hmf, hcs]
  rcases hlack with h1 | h1 | ⟨ef, rest, hd, hb⟩
  · exact ⟨pyRepr (JSON.str "data"),
      by rw [respond_parse_fail_key _ cs hnoerr (extract_no_data h1)]⟩
  · refine ⟨"list index out of range", ?_⟩
    rw [respond_parse_fail_index cs hnoerr (extract_empty_data h1)]
    rfl
  · exact ⟨pyRepr (JSON.str "b64_json"),
      by rw [respond_parse_fail_key _ cs hnoerr (extract_no_b64 hd hb)]⟩

/-- C8, witness: a 200 response whose `data` sequence is empty. -/
theorem C8_witness :
    ∃ details, (handle_call_tool "generate_image"
        (some [("prompt", JSON.str "p"), ("model", JSON.str "m")])
        (RawResp.resp 200 (some [("data", JSON.arr [])]))
        (RawResp.resp 200 (some []))).result
      = Except.ok (some [ToolResult.text ("Failed to parse API response: "
          ++ details)]) :=
  C8_parse_failure _ _ _ _ _ _ rfl rfl rfl rfl (Or.inl rfl) rfl
    (Or.inr (Or.inl rfl))

/-- C9: every request body handed to `client.post` during an invocation with
non-empty prompt and model contains the prompt, `response_format` set to
`b64_json`, and a model (the caller's on the first call, `DEFAULT_MODEL` on
the fallback); it contains `width` (respectively `height`) exactly when the
caller provided it, and its keys are exactly model, prompt, response_format
plus the provided optional dimensions. -/
theorem C9_payload_shape (args : Dict) (pv mv : JSON) (first second : RawResp)
    (b : Dict)
    (hpv : pyLookup args "prompt" = some pv) (hpf : pyFalsy (some pv) = false)
    (hmv : pyLookup args "model" = some mv) (hmf : pyFalsy (some mv) = false)
    (hb : b ∈ (handle_call_tool "generate_image" (some args) first second).calls) :
    pyLookup b "prompt" = some pv
    ∧ pyLookup b "response_format" = some (JSON.str "b64_json")
    ∧ (pyLookup b "model" = some mv
        ∨ pyLookup b "model" = some (JSON.str DEFAULT_MODEL))
    ∧ pyLookup b "width" = denull (pyLookup args "width")
    ∧ pyLookup b "height" = denull (pyLookup args "height")
    ∧ dictKeys b = ["model", "prompt", "response_format"]
        ++ (match denull (pyLookup args "width") with
            | some _ => ["width"] | none => [])
        ++ (match denull (pyLookup args "height") with
            | some _ => ["height"] | none => []) := by
  rw [handle_unfold args pv mv first second hpv hpf hmv hmf, respond_calls] at hb
  obtain ⟨l1, l2, l3, l4, l5, l6⟩ :=
    build_lookup pv mv (denull (pyLookup args "width")) (denull (pyLookup args "height"))
  rcases make_calls_shape first second pv mv (denull (pyLookup args "width"))
      (denull (pyLookup args "height")) with hc | hc <;> rw [hc] at hb
  · have hbe : b = build_request_body pv mv (denull (pyLookup args "width"))
        (denull (pyLookup args "height")) := by simpa using hb
    subst hbe
    exact ⟨l2, l3, Or.inl l1, l4, l5, l6⟩
  · have hbe : b = build_request_body pv mv (denull (pyLookup args "width"))
          (denull (pyLookup args "height"))
        ∨ b = dictSet (build_request_body pv mv (denull (pyLookup args "width"))
            (denull (pyLookup args "height"))) "model" (JSON.str DEFAULT_MODEL) := by
      simpa using hb
    have hkm : hasKey (build_request_body pv mv (denull (pyLookup args "width"))
        (denull (pyLookup args "height"))) "model" = true := by
      simp [hasKey, l1]
    rcases hbe with hbe | hbe <;> subst hbe
    · exact ⟨l2, l3, Or.inl l1, l4, l5, l6⟩
    · refine ⟨?_, ?_, Or.inr (pyLookup_dictSet_self _ _ _), ?_, ?_, ?_⟩
      · rw [pyLookup_dictSet_other _ _ _ _ (by decide)]
        exact l2
      · rw [pyLookup_dictSet_other _ _ _ _ (by decide)]
        exact l3
      · rw [pyLookup_dictSet_other _ _ _ _ (by decide)]
        exact l4
      · rw [pyLookup_dictSet_other _ _ _ _ (by decide)]
        exact l5
      · rw [dictKeys_dictSet_existing _ _ _ hkm]
        exact l6

/-- C9, witness: an invocation providing a width but no height. -/
theorem C9_witness :
    pyLookup (build_request_body (JSON.str "p") (JSON.str "m")
        (some (JSON.num 512)) none) "prompt" = some (JSON.str "p")
    ∧ pyLookup (build_request_body (JSON.str "p") (JSON.str "m")
        (some (JSON.num 512)) none) "response_format" = some (JSON.str "b64_json")
    ∧ (pyLookup (build_request_body (JSON.str "p") (JSON.str "m")
          (some (JSON.num 512)) none) "model" = some (JSON.str "m")
        ∨ pyLookup (build_request_body (JSON.str "p") (JSON.str "m")
          (some (JSON.num 512)) none) "model" = some (JSON.str DEFAULT_MODEL))
    ∧ pyLookup (build_request_body (JSON.str "p") (JSON.str "m")
        (some (JSON.num 512)) none) "width"
      = denull (pyLookup [("prompt", JSON.str "p"), ("model", JSON.str "m"),
          ("width", JSON.num 512)] "width")
    ∧ pyLookup (build_request_body (JSON.str "p") (JSON.str "m")
        (some (JSON.num 512)) none) "height"
      = denull (pyLookup [("prompt", JSON.str "p"), ("model", JSON.str "m"),
          ("width", JSON.num 512)] "height")
    ∧ dictKeys (build_request_body (JSON.str "p") (JSON.str "m")
        (some (JSON.num 512)) none)
      = ["model", "prompt", "response_format"]
        ++ (match denull (pyLookup [("prompt", JSON.str "p"),
              ("model", JSON.str "m"), ("width", JSON.num 512)] "width") with
            | some _ => ["width"] | none => [])
        ++ (match denull (pyLookup [("prompt", JSON.str "p"),
              ("model", JSON.str "m"), ("width", JSON.num 512)] "height") with
            | some _ => ["height"] | none => []) :=
  C9_payload_shape [("prompt", JSON.str "p"), ("model", JSON.str "m"),
      ("width", JSON.num 512)] (JSON.str "p") (JSON.str "m")
    (RawResp.fault PyErr.timeout) (RawResp.resp 200 (some [])) _
    rfl rfl rfl rfl (List.mem_singleton.mpr rfl)

/-- C10: a 200 first response makes `make_together_request` return the
decoded body unchanged — even when that body contains an `error` entry — and
no fallback call happens: the model-unavailable classification is reached
only for non-200 statuses. -/
theorem C10_success_body_returned_unchanged (d : Dict) (second : RawResp)
    (pv mv : JSON) (w h : Option JSON) :
    make_together_request (RawResp.resp 200 (some d)) second pv mv w h
      = ⟨Except.ok d, [build_request_body pv mv w h]⟩ := by
  simp [make_together_request, send_request]

end ImageGen
